import Mathlib

/-!
Shallow embedding of the `wwdtm_database_export` repository: a database
table dumper that runs fixed `SELECT ... ORDER BY <id> ASC` queries and
serializes each result set to a JSON file.

Modelling conventions:
* A JSON document is modelled by the `JsonValue` AST; `json.dumps` output is
  identified with the document it renders (2-space indentation and UTF-8
  encoding are presentation details of the rendering, which is injective on
  documents).
* A MySQL `DECIMAL` value is modelled by `DecimalValue` (mantissa and
  scale); Python's `float(decimal)` conversion is modelled value-faithfully
  by the decimal itself, and `str(decimal)` by `DecimalValue.render`.
* Python `None` returns of the `to_json` methods are modelled by `Option`.
* The `ORDER BY <key> ASC` clause of every query is modelled by sorting the
  table rows with an insertion sort on the integer key column.
-/

/-- A fixed-point decimal value: `mantissa / 10 ^ scale`.  Models both MySQL
`DECIMAL` column values and the Python `decimal.Decimal` objects the
connector returns for them. -/
structure DecimalValue where
  mantissa : Int
  scale : Nat
deriving DecidableEq, Repr

/-- Left-pad a digit string with zeros up to length `n`. -/
def padLeftZeros (s : String) (n : Nat) : String :=
  if n ≤ s.length then s else String.mk (List.replicate (n - s.length) '0') ++ s

/-- Python's `str` on a `decimal.Decimal`: the plain decimal notation with
`scale` digits after the point (for example `str(Decimal("12.5")) = "12.5"`). -/
def DecimalValue.render (d : DecimalValue) : String :=
  let sign := if d.mantissa < 0 then "-" else ""
  let digits := Nat.repr d.mantissa.natAbs
  if d.scale = 0 then sign ++ digits
  else
    let padded := padLeftZeros digits (d.scale + 1)
    let intLen := padded.length - d.scale
    sign ++ (padded.take intLen) ++ "." ++ (padded.drop intLen)

/-- JSON/Python value tree as built by the exporters and fed to `json.dumps`.
`int` and `float` are kept apart because the Python row values are `int` and
`float`/`Decimal` respectively. -/
inductive JsonValue where
  | null : JsonValue
  | bool : Bool → JsonValue
  | int : Int → JsonValue
  | float : DecimalValue → JsonValue
  | str : String → JsonValue
  | arr : List JsonValue → JsonValue
  | obj : List (String × JsonValue) → JsonValue

/-- Python `bool(...)` truthiness on a JSON value. -/
def JsonValue.truthy : JsonValue → Bool
  | .null => false
  | .bool b => b
  | .int n => n != 0
  | .float d => d.mantissa != 0
  | .str s => s ≠ ""
  | .arr xs => !xs.isEmpty
  | .obj fs => !fs.isEmpty

/-- First-match lookup in an association list; models Python `dict` access
(exporter dicts never repeat a key). -/
def lookupEntry {α : Type} : List (String × α) → String → Option α
  | [], _ => none
  | (k, v) :: rest, key => if k = key then some v else lookupEntry rest key

/-- Update-or-append on an association list; models Python `dict` item
assignment. -/
def setEntry {α : Type} : List (String × α) → String → α → List (String × α)
  | [], k, v => [(k, v)]
  | (k', v') :: rest, k, v =>
      if k' = k then (k, v) :: rest else (k', v') :: setEntry rest k v

/-- The integer stored under field `k` of a JSON object, when there is one. -/
def jsonIntField (j : JsonValue) (k : String) : Option Int :=
  match j with
  | .obj fs =>
      match lookupEntry fs k with
      | some (.int n) => some n
      | _ => none
  | _ => none

/-- Insert `x` into `l` before the first element with a key not smaller;
the inner step of the insertion sort modelling `ORDER BY`. -/
def insertByKey {α : Type} (key : α → Int) (x : α) : List α → List α
  | [] => [x]
  | y :: ys => if key x ≤ key y then x :: y :: ys else y :: insertByKey key x ys

/-- Sort a list of rows ascending by an integer key; models the
`ORDER BY <key> ASC` clause of the exporters' queries. -/
def sortByKey {α : Type} (key : α → Int) : List α → List α
  | [] => []
  | x :: xs => insertByKey key x (sortByKey key xs)

theorem mem_insertByKey {α : Type} (key : α → Int) (x : α) (l : List α) :
    ∀ y ∈ insertByKey key x l, y = x ∨ y ∈ l := by
  induction l with
  | nil => intro y hy; simp [insertByKey] at hy; exact Or.inl hy
  | cons z zs ih =>
      intro y hy
      by_cases h : key x ≤ key z
      · simp [insertByKey, h] at hy
        rcases hy with h1 | h2 | h3
        · exact Or.inl h1
        · exact Or.inr (by simp [h2])
        · exact Or.inr (by simp [h3])
      · simp [insertByKey, h] at hy
        rcases hy with h1 | h2
        · exact Or.inr (by simp [h1])
        · rcases ih y h2 with h3 | h4
          · exact Or.inl h3
          · exact Or.inr (by simp [h4])

theorem pairwise_insertByKey {α : Type} (key : α → Int) (x : α) (l : List α)
    (h : l.Pairwise (fun a b => key a ≤ key b)) :
    (insertByKey key x l).Pairwise (fun a b => key a ≤ key b) := by
  induction l with
  | nil => simp [insertByKey]
  | cons z zs ih =>
      rcases List.pairwise_cons.mp h with ⟨hz, hzs⟩
      by_cases hle : key x ≤ key z
      · simp only [insertByKey, if_pos hle]
        refine List.pairwise_cons.mpr ⟨?_, h⟩
        intro b hb
        rcases hb with _ | hb
        · exact hle
        · exact le_trans hle (hz b (by assumption))
      · simp only [insertByKey, if_neg hle]
        refine List.pairwise_cons.mpr ⟨?_, ih hzs⟩
        intro b hb
        rcases mem_insertByKey key x zs b hb with h1 | h2
        · subst h1; omega
        · exact hz b h2

theorem pairwise_sortByKey {α : Type} (key : α → Int) (l : List α) :
    (sortByKey key l).Pairwise (fun a b => key a ≤ key b) := by
  induction l with
  | nil => simp [sortByKey]
  | cons x xs ih => exact pairwise_insertByKey key x (sortByKey key xs) ih

/-- A SQL statement sent through `cursor.execute`, kept structured so that
select-lists and statement kinds are inspectable. -/
inductive SqlQuery where
  | select : List String → String → String → SqlQuery
  | showColumns : String → String → SqlQuery
deriving DecidableEq

/-- The columns of a `SELECT` statement (empty for other statements). -/
def SqlQuery.selectColumns : SqlQuery → List String
  | .select cols _ _ => cols
  | _ => []

/-- Whether a statement is a `SHOW COLUMNS ... WHERE Field = ...`
schema-introspection query. -/
def SqlQuery.isSchemaIntrospection : SqlQuery → Bool
  | .showColumns _ _ => true
  | _ => false

/-- A calendar date as returned for a MySQL `DATE` column. -/
structure DateValue where
  year : Nat
  month : Nat
  day : Nat
deriving DecidableEq, Repr

/-- Python `date.isoformat()`: `YYYY-MM-DD`. -/
def DateValue.isoformat (d : DateValue) : String :=
  padLeftZeros (Nat.repr d.year) 4 ++ "-" ++ padLeftZeros (Nat.repr d.month) 2
    ++ "-" ++ padLeftZeros (Nat.repr d.day) 2

/-- A nullable integer column value as a JSON value (NULL passes through). -/
def jsonOfOptInt : Option Int → JsonValue
  | some n => .int n
  | none => .null

/-- A nullable text column value as a JSON value (NULL passes through). -/
def jsonOfOptStr : Option String → JsonValue
  | some s => .str s
  | none => .null

/-- The shared decimal-column transform of `Locations.to_json` and
`Shows.panelist_map_to_json` (src/export/locations.py lines 60-77,
src/export/shows.py lines 166-191): Python `if row.<col>:` truthiness keeps
NULL and zero as `None`, otherwise renders per `convert_decimal_to_string`. -/
def decimalFieldJson (convert_decimal_to_string : Bool) : Option DecimalValue → JsonValue
  | some d =>
      if d.mantissa = 0 then .null
      else if convert_decimal_to_string then .str d.render else .float d
  | none => .null

/-- Row of `ww_guests` as selected by `Guests.to_json`. -/
structure GuestRow where
  guestid : Int
  guest : String
  guestslug : String
deriving DecidableEq, Repr

/-- Row of `ww_hosts` as selected by `Hosts.to_json`. -/
structure HostRow where
  hostid : Int
  host : String
  hostgender : String
  hostpronouns : Option String
  hostslug : String
deriving DecidableEq, Repr

/-- Row of `ww_panelists` as selected by `Panelists.to_json`. -/
structure PanelistRow where
  panelistid : Int
  panelist : String
  panelistgender : String
  panelistpronouns : Option String
  panelistslug : String
deriving DecidableEq, Repr

/-- Row of `ww_pronouns` as selected by `Pronouns.to_json`. -/
structure PronounsRow where
  pronounsid : Int
  pronouns : String
deriving DecidableEq, Repr

/-- Row of `ww_locations` as selected by `Locations.to_json`. -/
structure LocationRow where
  locationid : Int
  city : String
  state : String
  venue : String
  latitude : Option DecimalValue
  longitude : Option DecimalValue
  locationslug : String
deriving DecidableEq, Repr

/-- Row of `ww_shows` as selected by `Shows.to_json`. -/
structure ShowRow where
  showid : Int
  showdate : DateValue
  repeatshowid : Option Int
  bestof : Int
  bestofuniquebluff : Int
deriving DecidableEq, Repr

/-- Row of `ww_showbluffmap` as selected by `Shows.bluff_map_to_json`. -/
structure ShowBluffMapRow where
  showbluffmapid : Int
  showid : Int
  chosenbluffpnlid : Option Int
  correctbluffpnlid : Option Int
deriving DecidableEq, Repr

/-- Row of `ww_showguestmap` as selected by `Shows.guest_map_to_json`. -/
structure ShowGuestMapRow where
  showguestmapid : Int
  showid : Int
  guestid : Int
  guestscore : Option Int
  exception : Int
deriving DecidableEq, Repr

/-- Row of `ww_showhostmap` as selected by `Shows.host_map_to_json`. -/
structure ShowHostMapRow where
  showhostmapid : Int
  showid : Int
  hostid : Int
  guest : Int
deriving DecidableEq, Repr

/-- Row of `ww_showlocationmap` as selected by `Shows.location_map_to_json`. -/
structure ShowLocationMapRow where
  showlocationmapid : Int
  showid : Int
  locationid : Int
deriving DecidableEq, Repr

/-- Row of `ww_showpnlmap` as selected by `Shows.panelist_map_to_json`. -/
structure ShowPnlMapRow where
  showpnlmapid : Int
  showid : Int
  panelistid : Int
  panelistlrndstart : Option Int
  panelistlrndstart_decimal : Option DecimalValue
  panelistlrndcorrect : Option Int
  panelistlrndcorrect_decimal : Option DecimalValue
  panelistscore : Option Int
  panelistscore_decimal : Option DecimalValue
  showpnlrank : Option String
deriving DecidableEq, Repr

/-- Row of `ww_showskmap` as selected by `Shows.scorekeeper_map_to_json`. -/
structure ShowSkMapRow where
  showskmapid : Int
  showid : Int
  scorekeeperid : Int
  guest : Int
  description : Option String
deriving DecidableEq, Repr

/-- The row dict a `dictionary=True` cursor yields for `ww_guests`: keys in
select-list order, values as returned. -/
def guestRowFields (r : GuestRow) : List (String × JsonValue) :=
  [("guestid", .int r.guestid), ("guest", .str r.guest),
   ("guestslug", .str r.guestslug)]

/-- The row dict a `dictionary=True` cursor yields for `ww_hosts`. -/
def hostRowFields (r : HostRow) : List (String × JsonValue) :=
  [("hostid", .int r.hostid), ("host", .str r.host),
   ("hostgender", .str r.hostgender),
   ("hostpronouns", jsonOfOptStr r.hostpronouns),
   ("hostslug", .str r.hostslug)]

/-- The row dict a `dictionary=True` cursor yields for `ww_panelists`. -/
def panelistRowFields (r : PanelistRow) : List (String × JsonValue) :=
  [("panelistid", .int r.panelistid), ("panelist", .str r.panelist),
   ("panelistgender", .str r.panelistgender),
   ("panelistpronouns", jsonOfOptStr r.panelistpronouns),
   ("panelistslug", .str r.panelistslug)]

/-- The row dict a `dictionary=True` cursor yields for `ww_pronouns`. -/
def pronounsRowFields (r : PronounsRow) : List (String × JsonValue) :=
  [("pronounsid", .int r.pronounsid), ("pronouns", .str r.pronouns)]

/-- The dict built per row by `Locations.to_json`
(src/export/locations.py lines 79-88).  Exactly as in the source, the
`"state"` key receives `row.venue` and no `"venue"` key is emitted. -/
def locationRowFields (convert_decimal_to_string : Bool) (r : LocationRow) :
    List (String × JsonValue) :=
  [("locationid", .int r.locationid),
   ("city", .str r.city),
   ("state", .str r.venue),
   ("latitude", decimalFieldJson convert_decimal_to_string r.latitude),
   ("longitude", decimalFieldJson convert_decimal_to_string r.longitude),
   ("locationslug", .str r.locationslug)]

/-- The dict built per row by `Shows.to_json`
(src/export/shows.py lines 61-67): `showdate` is ISO-formatted. -/
def showRowFields (r : ShowRow) : List (String × JsonValue) :=
  [("showid", .int r.showid),
   ("showdate", .str r.showdate.isoformat),
   ("repeatshowid", jsonOfOptInt r.repeatshowid),
   ("bestof", .int r.bestof),
   ("bestofuniquebluff", .int r.bestofuniquebluff)]

/-- The row dict a `dictionary=True` cursor yields for `ww_showbluffmap`. -/
def bluffMapRowFields (r : ShowBluffMapRow) : List (String × JsonValue) :=
  [("showbluffmapid", .int r.showbluffmapid), ("showid", .int r.showid),
   ("chosenbluffpnlid", jsonOfOptInt r.chosenbluffpnlid),
   ("correctbluffpnlid", jsonOfOptInt r.correctbluffpnlid)]

/-- The row dict a `dictionary=True` cursor yields for `ww_showguestmap`. -/
def guestMapRowFields (r : ShowGuestMapRow) : List (String × JsonValue) :=
  [("showguestmapid", .int r.showguestmapid), ("showid", .int r.showid),
   ("guestid", .int r.guestid),
   ("guestscore", jsonOfOptInt r.guestscore),
   ("exception", .int r.exception)]

/-- The row dict a `dictionary=True` cursor yields for `ww_showhostmap`. -/
def hostMapRowFields (r : ShowHostMapRow) : List (String × JsonValue) :=
  [("showhostmapid", .int r.showhostmapid), ("showid", .int r.showid),
   ("hostid", .int r.hostid), ("guest", .int r.guest)]

/-- The row dict a `dictionary=True` cursor yields for `ww_showlocationmap`. -/
def locationMapRowFields (r : ShowLocationMapRow) : List (String × JsonValue) :=
  [("showlocationmapid", .int r.showlocationmapid), ("showid", .int r.showid),
   ("locationid", .int r.locationid)]

/-- The dict built per row by `Shows.panelist_map_to_json`
(src/export/shows.py lines 193-206): the three `_decimal` columns go through
the truthiness-guarded decimal transform, everything else passes through. -/
def pnlMapRowFields (convert_decimal_to_string : Bool) (r : ShowPnlMapRow) :
    List (String × JsonValue) :=
  [("showpnlmapid", .int r.showpnlmapid),
   ("showid", .int r.showid),
   ("panelistid", .int r.panelistid),
   ("panelistlrndstart", jsonOfOptInt r.panelistlrndstart),
   ("panelistlrndstart_decimal",
      decimalFieldJson convert_decimal_to_string r.panelistlrndstart_decimal),
   ("panelistlrndcorrect", jsonOfOptInt r.panelistlrndcorrect),
   ("panelistlrndcorrect_decimal",
      decimalFieldJson convert_decimal_to_string r.panelistlrndcorrect_decimal),
   ("panelistscore", jsonOfOptInt r.panelistscore),
   ("panelistscore_decimal",
      decimalFieldJson convert_decimal_to_string r.panelistscore_decimal),
   ("showpnlrank", jsonOfOptStr r.showpnlrank)]

/-- The row dict a `dictionary=True` cursor yields for `ww_showskmap`. -/
def skMapRowFields (r : ShowSkMapRow) : List (String × JsonValue) :=
  [("showskmapid", .int r.showskmapid), ("showid", .int r.showid),
   ("scorekeeperid", .int r.scorekeeperid), ("guest", .int r.guest),
   ("description", jsonOfOptStr r.description)]

/-- Common shape of every `to_json` method except `Locations.to_json`:
fetch the rows ordered by the key column, and `if results:` serialize them
(one object per row, select-list key order), else fall through returning
Python `None`. -/
def exportTable {α : Type} (key : α → Int)
    (fields : α → List (String × JsonValue)) (t : List α) : Option JsonValue :=
  let results := sortByKey key t
  if results.isEmpty then none
  else some (.arr (results.map fun r => .obj (fields r)))

/-- `Guests.to_json` (src/export/guests.py lines 39-56). -/
def Guests.to_json (t : List GuestRow) : Option JsonValue :=
  exportTable (fun r => r.guestid) guestRowFields t

/-- `Hosts.to_json` (src/export/hosts.py lines 42-58). -/
def Hosts.to_json (t : List HostRow) : Option JsonValue :=
  exportTable (fun r => r.hostid) hostRowFields t

/-- `Panelists.to_json` (src/export/panelists.py lines 42-59). -/
def Panelists.to_json (t : List PanelistRow) : Option JsonValue :=
  exportTable (fun r => r.panelistid) panelistRowFields t

/-- `Pronouns.to_json` (src/export/pronouns.py lines 42-57). -/
def Pronouns.to_json (t : List PronounsRow) : Option JsonValue :=
  exportTable (fun r => r.pronounsid) pronounsRowFields t

/-- `Locations.to_json` (src/export/locations.py lines 42-90).  Unlike every
other exporter, the `json.dumps` call sits outside the `if results:` guard,
so an empty table still yields the JSON document `[]`. -/
def Locations.to_json (t : List LocationRow) (convert_decimal_to_string : Bool) :
    Option JsonValue :=
  some (.arr ((sortByKey (fun r => r.locationid) t).map
    fun r => .obj (locationRowFields convert_decimal_to_string r)))

/-- `Shows.to_json` (src/export/shows.py lines 43-70). -/
def Shows.to_json (t : List ShowRow) : Option JsonValue :=
  exportTable (fun r => r.showid) showRowFields t

/-- `Shows.bluff_map_to_json` (src/export/shows.py lines 72-88). -/
def Shows.bluff_map_to_json (t : List ShowBluffMapRow) : Option JsonValue :=
  exportTable (fun r => r.showbluffmapid) bluffMapRowFields t

/-- `Shows.guest_map_to_json` (src/export/shows.py lines 90-106). -/
def Shows.guest_map_to_json (t : List ShowGuestMapRow) : Option JsonValue :=
  exportTable (fun r => r.showguestmapid) guestMapRowFields t

/-- `Shows.host_map_to_json` (src/export/shows.py lines 108-124). -/
def Shows.host_map_to_json (t : List ShowHostMapRow) : Option JsonValue :=
  exportTable (fun r => r.showhostmapid) hostMapRowFields t

/-- `Shows.location_map_to_json` (src/export/shows.py lines 126-142). -/
def Shows.location_map_to_json (t : List ShowLocationMapRow) : Option JsonValue :=
  exportTable (fun r => r.showlocationmapid) locationMapRowFields t

/-- `Shows.panelist_map_to_json` (src/export/shows.py lines 144-208). -/
def Shows.panelist_map_to_json (t : List ShowPnlMapRow)
    (convert_decimal_to_string : Bool) : Option JsonValue :=
  exportTable (fun r => r.showpnlmapid)
    (pnlMapRowFields convert_decimal_to_string) t

/-- `Shows.scorekeeper_map_to_json` (src/export/shows.py lines 210-226). -/
def Shows.scorekeeper_map_to_json (t : List ShowSkMapRow) : Option JsonValue :=
  exportTable (fun r => r.showskmapid) skMapRowFields t

/-- The single fixed statement of `Shows.panelist_map_to_json`
(src/export/shows.py lines 149-156): its select-list unconditionally
includes `panelistscore_decimal`. -/
def panelistMapQuery : SqlQuery :=
  .select ["showpnlmapid", "showid", "panelistid",
           "panelistlrndstart", "panelistlrndstart_decimal",
           "panelistlrndcorrect", "panelistlrndcorrect_decimal",
           "panelistscore", "panelistscore_decimal", "showpnlrank"]
    "ww_showpnlmap" "showpnlmapid"

/-- Every statement `Shows.panelist_map_to_json` passes to `cursor.execute`
during one call (src/export/shows.py lines 149-161): exactly one `SELECT`,
no introspection. -/
def panelistMapExecutedQueries : List SqlQuery := [panelistMapQuery]

/-- The select-list of the `Locations.to_json` query
(src/export/locations.py lines 48-53). -/
def locationsSelectList : List String :=
  ["locationid", "city", "state", "venue", "latitude", "longitude",
   "locationslug"]

/-- The keys of a JSON object, in emission order. -/
def JsonValue.objKeys : JsonValue → List String
  | .obj fs => fs.map (fun f => f.1)
  | _ => []

/-- A `mysql.connector` connection handle: the parameters it was opened with
and the liveness flag `is_connected()` reports. -/
structure ConnectionHandle where
  params : List (String × JsonValue)
  is_connected : Bool

/-- `mysql.connector.connect(**connect_dict)`: opens a fresh, live
connection from the given parameters. -/
def mysqlConnect (connect_dict : List (String × JsonValue)) : ConnectionHandle :=
  { params := connect_dict, is_connected := true }

/-- `connection.reconnect()`: the same connection, live again. -/
def reconnectHandle (c : ConnectionHandle) : ConnectionHandle :=
  { c with is_connected := true }

/-- Python truthiness of the optional `connect_dict` argument: not `None`
and non-empty. -/
def dictTruthy (cd : Option (List (String × JsonValue))) : Bool :=
  match cd with
  | none => false
  | some d => !d.isEmpty

/-- The attributes an exporter instance ends up with, plus a record of the
side effects its construction performed. -/
structure InitResult where
  connect_dict : Option (List (String × JsonValue))
  database_connection : Option ConnectionHandle
  openedNewConnection : Bool
  checkedLiveness : Bool
  reconnected : Bool

/-- The `__init__` body shared verbatim by `Guests`, `Hosts`, `Locations`,
`Panelists`, `Pronouns` and `Shows` (for example src/export/guests.py lines
24-37): `if connect_dict:` opens a new connection; `elif
database_connection:` checks liveness and reconnects if needed; otherwise
neither attribute is assigned. -/
def exporterInit (connect_dict : Option (List (String × JsonValue)))
    (database_connection : Option ConnectionHandle) : InitResult :=
  if dictTruthy connect_dict then
    { connect_dict := connect_dict,
      database_connection := some (mysqlConnect (connect_dict.getD [])),
      openedNewConnection := true, checkedLiveness := false,
      reconnected := false }
  else
    match database_connection with
    | some conn =>
        if !conn.is_connected then
          { connect_dict := none,
            database_connection := some (reconnectHandle conn),
            openedNewConnection := false, checkedLiveness := true,
            reconnected := true }
        else
          { connect_dict := none, database_connection := some conn,
            openedNewConnection := false, checkedLiveness := true,
            reconnected := false }
    | none =>
        { connect_dict := none, database_connection := none,
          openedNewConnection := false, checkedLiveness := false,
          reconnected := false }

/-- `Guests.__init__` (src/export/guests.py lines 24-37). -/
def Guests.init (connect_dict : Option (List (String × JsonValue)))
    (database_connection : Option ConnectionHandle) : InitResult :=
  exporterInit connect_dict database_connection

/-- `Locations.__init__` (src/export/locations.py lines 27-40). -/
def Locations.init (connect_dict : Option (List (String × JsonValue)))
    (database_connection : Option ConnectionHandle) : InitResult :=
  exporterInit connect_dict database_connection

/-- Python exceptions the embedded operations can raise. -/
inductive PyError where
  | fileNotFoundError : PyError
  | permissionError : PyError
  | jsonDecodeError : PyError
  | attributeError : PyError
  | typeError : PyError
deriving DecidableEq

/-- Calling `to_json` on a constructed instance: `self.database_connection`
is read first (src/export/guests.py line 45), so an instance built with
neither argument raises `AttributeError` before any query runs. -/
def Guests.to_json_on (st : InitResult) (t : List GuestRow) :
    Except PyError (Option JsonValue) :=
  match st.database_connection with
  | none => .error .attributeError
  | some _ => .ok (Guests.to_json t)

/-- `config.json` as seen by the loaders: either unreadable in one of three
ways, or a parsed JSON document. -/
inductive ConfigSource where
  | missing : ConfigSource
  | unreadable : ConfigSource
  | invalidJson : ConfigSource
  | parsed : JsonValue → ConfigSource

/-- Python truthiness of `settings.get(key, False)` as used by
`load_settings`: `False` when the key is absent, else `bool(value)`. -/
def settingsFlag (settings : List (String × JsonValue)) (key : String) : Bool :=
  match lookupEntry settings key with
  | some v => v.truthy
  | none => false

/-- `load_settings` (src/database_export.py lines 38-54).  A missing,
unreadable or non-JSON file raises out of the function (modelled as
`Except.error`); a parsed document with a `settings` object has its two
flag keys overwritten by `bool(settings.get(key, False))` and is returned;
a document without a `settings` key falls off the end, returning `None`.
A top-level document that is not a JSON object is modelled as raising
`TypeError` on the `in` test. -/
def load_settings (src : ConfigSource) : Except PyError (Option JsonValue) :=
  match src with
  | .missing => .error .fileNotFoundError
  | .unreadable => .error .permissionError
  | .invalidJson => .error .jsonDecodeError
  | .parsed config =>
      match config with
      | .obj fields =>
          match lookupEntry fields "settings" with
          | some (.obj settings) =>
              let s1 := setEntry settings "include_panelist_decimal_score"
                (.bool (settingsFlag settings "include_panelist_decimal_score"))
              let s2 := setEntry s1 "convert_decimal_to_string"
                (.bool (settingsFlag s1 "convert_decimal_to_string"))
              .ok (some (.obj s2))
          | some _ => .error .attributeError
          | none => .ok none
      | _ => .error .typeError

/-- `load_database_config` (src/database_export.py lines 25-35): returns the
`database` section as-is when present, `None` otherwise; file errors raise. -/
def load_database_config (src : ConfigSource) : Except PyError (Option JsonValue) :=
  match src with
  | .missing => .error .fileNotFoundError
  | .unreadable => .error .permissionError
  | .invalidJson => .error .jsonDecodeError
  | .parsed config =>
      match config with
      | .obj fields => .ok (lookupEntry fields "database")
      | _ => .error .typeError

/-- What an output file holds after the run touched it: a serialized JSON
document, or nothing yet (the file was created and truncated by
`open("w")` but no text was written). -/
inductive FileContent where
  | jsonDoc : JsonValue → FileContent
  | emptyFile : FileContent

/-- One `export_*_table` write: the fixed file name and the `to_json`
result to write (`none` models the Python `None` an exporter returns on an
empty table). -/
structure WriteJob where
  path : String
  content : Option JsonValue

/-- Observable process state threaded through the orchestrator: files on
disk, lines printed to standard output, the `sys.exit` status if any, and
an uncaught exception if one escaped. -/
structure RunState where
  files : List (String × FileContent)
  stdoutLines : List String
  exitCode : Option Nat
  uncaught : Option PyError

/-- The state at process start. -/
def initialRunState : RunState :=
  { files := [], stdoutLines := [], exitCode := none, uncaught := none }

/-- The diagnostic `export_*_table` prints on a write permission failure
(for example src/database_export.py line 143). -/
def writeErrorMessage (p : String) : String :=
  "Could not create or write to " ++ p ++ ". Exiting."

/-- The diagnostic `create_output_directory` prints on a mkdir permission
failure (src/database_export.py line 107). -/
def mkdirErrorMessage (p : String) : String :=
  "Could not create directory " ++ p ++ ". Exiting."

/-- `create_output_directory` (src/database_export.py lines 97-108): when
the directory does not exist, `mkdir(parents=True)`; a `PermissionError` is
caught once, reported on standard output and answered with `sys.exit(1)`.
`denied` says whether mkdir raises `PermissionError` for this path. -/
def create_output_directory (dirExists : Bool) (denied : Bool) (path : String)
    (st : RunState) : RunState :=
  if !dirExists then
    if denied then
      { st with stdoutLines := st.stdoutLines ++ [mkdirErrorMessage path],
                exitCode := some 1 }
    else st
  else st

/-- The per-file `try: open/write except PermissionError` block repeated in
every `export_*_table` function (for example src/database_export.py lines
139-144), iterated over the orchestrator's fixed job sequence.  A denied
`open` is caught: print the diagnostic and `sys.exit(1)` (no further job
runs, no retry).  An allowed `open("w")` first truncates/creates the file;
`write(None)` then raises an uncaught `TypeError`, `write(text)` stores the
document. -/
def runWriteJobs (denied : String → Bool) : List WriteJob → RunState → RunState
  | [], st => st
  | job :: rest, st =>
      if denied job.path then
        { st with stdoutLines := st.stdoutLines ++ [writeErrorMessage job.path],
                  exitCode := some 1 }
      else
        match job.content with
        | some j =>
            runWriteJobs denied rest
              { st with files := setEntry st.files job.path (.jsonDoc j) }
        | none =>
            { st with files := setEntry st.files job.path .emptyFile,
                      uncaught := some .typeError }

/-- The write of `export_guests_table` (src/database_export.py lines
129-144). -/
def export_guests_table_job (t : List GuestRow) : WriteJob :=
  { path := "ww_guests.json", content := Guests.to_json t }

/-- The write of `export_locations_table` (src/database_export.py lines
165-184). -/
def export_locations_table_job (t : List LocationRow)
    (convert_decimal_to_string : Bool) : WriteJob :=
  { path := "ww_locations.json",
    content := Locations.to_json t convert_decimal_to_string }

/-- The show-related tables one run reads. -/
structure ShowsDb where
  shows : List ShowRow
  guestMap : List ShowGuestMapRow
  hostMap : List ShowHostMapRow
  locationMap : List ShowLocationMapRow
  panelistMap : List ShowPnlMapRow
  scorekeeperMap : List ShowSkMapRow

/-- The write sequence of `export_shows_tables` (src/database_export.py
lines 259-338), in source order: `ww_showhostmap.json` is produced and
written twice in immediate succession (lines 288-306). -/
def export_shows_tables_jobs (db : ShowsDb) (convert_decimal_to_string : Bool) :
    List WriteJob :=
  [{ path := "ww_shows.json", content := Shows.to_json db.shows },
   { path := "ww_showguestmap.json",
     content := Shows.guest_map_to_json db.guestMap },
   { path := "ww_showhostmap.json",
     content := Shows.host_map_to_json db.hostMap },
   { path := "ww_showhostmap.json",
     content := Shows.host_map_to_json db.hostMap },
   { path := "ww_showlocationmap.json",
     content := Shows.location_map_to_json db.locationMap },
   { path := "ww_showpnlmap.json",
     content := Shows.panelist_map_to_json db.panelistMap
       convert_decimal_to_string },
   { path := "ww_showskmap.json",
     content := Shows.scorekeeper_map_to_json db.scorekeeperMap }]

/-- What `export_shows_tables` would write with the duplicated
`ww_showhostmap.json` block collapsed to a single write; stated from the
claim's words for comparison with `export_shows_tables_jobs`. -/
def export_shows_tables_jobs_single_hostmap (db : ShowsDb)
    (convert_decimal_to_string : Bool) : List WriteJob :=
  [{ path := "ww_shows.json", content := Shows.to_json db.shows },
   { path := "ww_showguestmap.json",
     content := Shows.guest_map_to_json db.guestMap },
   { path := "ww_showhostmap.json",
     content := Shows.host_map_to_json db.hostMap },
   { path := "ww_showlocationmap.json",
     content := Shows.location_map_to_json db.locationMap },
   { path := "ww_showpnlmap.json",
     content := Shows.panelist_map_to_json db.panelistMap
       convert_decimal_to_string },
   { path := "ww_showskmap.json",
     content := Shows.scorekeeper_map_to_json db.scorekeeperMap }]

/-- The spec's ordering property for an exported document: if it is an
array, each element's integer field `k` is at most the next element's. -/
def jsonArrayAscendingBy (doc : JsonValue) (k : String) : Prop :=
  ∀ l, doc = JsonValue.arr l →
    ∀ i, (h : i + 1 < l.length) →
      ∃ x y, jsonIntField (l.get ⟨i, Nat.lt_of_succ_lt h⟩) k = some x ∧
             jsonIntField (l.get ⟨i + 1, h⟩) k = some y ∧ x ≤ y

theorem mapped_sorted_ascending {α : Type} (key : α → Int) (kname : String)
    (fields : α → List (String × JsonValue))
    (hk : ∀ r, jsonIntField (JsonValue.obj (fields r)) kname = some (key r))
    (t : List α) :
    jsonArrayAscendingBy
      (JsonValue.arr ((sortByKey key t).map fun r => JsonValue.obj (fields r)))
      kname := by
  intro l heq i h
  have hl : ((sortByKey key t).map fun r => JsonValue.obj (fields r)) = l :=
    (JsonValue.arr.injEq _ _).mp heq
  subst hl
  have hlen : ((sortByKey key t).map
      fun r => JsonValue.obj (fields r)).length = (sortByKey key t).length :=
    List.length_map _ _
  have hi : i < (sortByKey key t).length := by omega
  have hi1 : i + 1 < (sortByKey key t).length := by omega
  refine ⟨key ((sortByKey key t).get ⟨i, hi⟩),
          key ((sortByKey key t).get ⟨i + 1, hi1⟩), ?_, ?_, ?_⟩
  · rw [List.get_map]; exact hk _
  · rw [List.get_map]; exact hk _
  · exact List.pairwise_iff_get.mp (pairwise_sortByKey key t)
      ⟨i, hi⟩ ⟨i + 1, hi1⟩ (by simp)

theorem exportTable_ascending {α : Type} (key : α → Int) (kname : String)
    (fields : α → List (String × JsonValue))
    (hk : ∀ r, jsonIntField (JsonValue.obj (fields r)) kname = some (key r))
    (t : List α) (doc : JsonValue) (h : exportTable key fields t = some doc) :
    jsonArrayAscendingBy doc kname := by
  unfold exportTable at h
  by_cases he : (sortByKey key t).isEmpty
  · simp [he] at h
  · simp only [he, if_neg, Bool.false_eq_true, not_false_eq_true,
      if_false] at h
    have := mapped_sorted_ascending key kname fields hk t
    rw [Option.some_inj] at h
    rw [h] at this
    exact this

/-- C1 counterexample: on a zero-row result, `Locations.to_json` does
produce JSON text, namely the empty-array document `[]` — the claim that no
exporter produces any JSON text for an empty table is false. -/
theorem c1_locations_empty_table_yields_empty_array :
    Locations.to_json [] false = some (JsonValue.arr []) := rfl

/-- C1 (amended): on a zero-row result the guests exporter returns no JSON
text (Python `None`), but the locations exporter returns the empty-array
document `[]`; the orchestrator opens every output file unconditionally, so
a file is created even then — an empty-array `ww_locations.json`, and for
guests an empty `ww_guests.json` left behind when writing `None` raises an
uncaught `TypeError`. -/
theorem c1_empty_table_behavior :
    Guests.to_json [] = none ∧
    (∀ b : Bool, Locations.to_json [] b = some (JsonValue.arr [])) ∧
    (runWriteJobs (fun _ => false) [export_locations_table_job [] false]
        initialRunState).files
      = [("ww_locations.json", FileContent.jsonDoc (JsonValue.arr []))] ∧
    (runWriteJobs (fun _ => false) [export_guests_table_job []]
        initialRunState).files
      = [("ww_guests.json", FileContent.emptyFile)] ∧
    (runWriteJobs (fun _ => false) [export_guests_table_job []]
        initialRunState).uncaught = some PyError.typeError :=
  ⟨rfl, fun _ => rfl, rfl, rfl, rfl⟩

/-- A concrete `ww_locations` row used to exhibit the select-list/key
mismatch of `Locations.to_json`. -/
def c2LocationRow : LocationRow :=
  { locationid := 1, city := "Chicago", state := "Illinois",
    venue := "Chase Auditorium", latitude := none, longitude := none,
    locationslug := "chicago-il" }

/-- C2: evaluating `Locations.to_json` on a concrete row shows the emitted
object's keys are `locationid, city, state, latitude, longitude,
locationslug` — not the select-list `locationid, city, state, venue,
latitude, longitude, locationslug`: the `venue` key is missing and the
`state` key carries the row's `venue` value, contradicting both the
round-trip claim and the code's own select-list. -/
theorem c2_locations_keys_mismatch :
    Locations.to_json [c2LocationRow] false =
      some (JsonValue.arr [JsonValue.obj
        [("locationid", JsonValue.int 1),
         ("city", JsonValue.str "Chicago"),
         ("state", JsonValue.str "Chase Auditorium"),
         ("latitude", JsonValue.null),
         ("longitude", JsonValue.null),
         ("locationslug", JsonValue.str "chicago-il")]]) ∧
    (JsonValue.obj (locationRowFields false c2LocationRow)).objKeys =
      ["locationid", "city", "state", "latitude", "longitude",
       "locationslug"] ∧
    (JsonValue.obj (locationRowFields false c2LocationRow)).objKeys ≠
      locationsSelectList ∧
    lookupEntry (locationRowFields false c2LocationRow) "venue" = none ∧
    lookupEntry (locationRowFields false c2LocationRow) "state" =
      some (JsonValue.str "Chase Auditorium") :=
  ⟨rfl, rfl, by decide, rfl, rfl⟩

/-- C3 counterexample: during one call, `Shows.panelist_map_to_json`
executes exactly one statement and none of them is a
`SHOW COLUMNS` schema-introspection query — the claimed introspection step
does not exist in the code. -/
theorem c3_no_introspection_query :
    panelistMapExecutedQueries.any SqlQuery.isSchemaIntrospection = false ∧
    panelistMapExecutedQueries.length = 1 := by
  decide

/-- C3 (amended): the panelist-map export executes a single fixed `SELECT`
whose select-list unconditionally includes `panelistscore_decimal`; it
performs no schema introspection and has no fallback select-list. -/
theorem c3_fixed_select_list :
    panelistMapExecutedQueries = [panelistMapQuery] ∧
    panelistMapQuery.isSchemaIntrospection = false ∧
    "panelistscore_decimal" ∈ panelistMapQuery.selectColumns := by
  refine ⟨rfl, rfl, ?_⟩
  decide

theorem decimalFieldJson_eq_null_iff (b : Bool) (o : Option DecimalValue) :
    decimalFieldJson b o = JsonValue.null ↔
      (o = none ∨ ∃ d, o = some d ∧ d.mantissa = 0) := by
  cases o with
  | none => simp [decimalFieldJson]
  | some d =>
      by_cases h : d.mantissa = 0
      · simp [decimalFieldJson, h]
      · cases b <;> simp [decimalFieldJson, h]

theorem decimalFieldJson_nonzero (b : Bool) (d : DecimalValue)
    (h : d.mantissa ≠ 0) :
    decimalFieldJson b (some d) =
      if b then JsonValue.str d.render else JsonValue.float d := by
  simp [decimalFieldJson, h]

/-- A concrete `ww_locations` row with a non-NULL latitude equal to zero. -/
def zeroLatitudeRow : LocationRow :=
  { locationid := 2, city := "Quito", state := "Pichincha",
    venue := "Teatro Nacional", latitude := some ⟨0, 6⟩,
    longitude := some ⟨-785, 1⟩, locationslug := "quito" }

/-- C4 counterexample: a location row whose `latitude` is the non-NULL
decimal 0.000000 is emitted as `"latitude": null`, so the emitted field is
not null exactly when the database value is NULL, and a non-NULL value is
not rendered faithfully. -/
theorem c4_zero_latitude_emitted_null :
    zeroLatitudeRow.latitude = some ⟨0, 6⟩ ∧
    lookupEntry (locationRowFields false zeroLatitudeRow) "latitude" =
      some JsonValue.null :=
  ⟨rfl, rfl⟩

/-- C4 (amended): the emitted `latitude`/`longitude` key is always present
(never omitted), it is JSON null exactly when the database value is NULL
**or zero** (Python truthiness), and every non-NULL, non-zero value is
rendered faithfully as a string or number per `convert_decimal_to_string`. -/
theorem c4_latitude_longitude_null_semantics (b : Bool) (r : LocationRow) :
    (lookupEntry (locationRowFields b r) "latitude").isSome = true ∧
    (lookupEntry (locationRowFields b r) "longitude").isSome = true ∧
    ((lookupEntry (locationRowFields b r) "latitude" = some JsonValue.null) ↔
      (r.latitude = none ∨ ∃ d, r.latitude = some d ∧ d.mantissa = 0)) ∧
    ((lookupEntry (locationRowFields b r) "longitude" = some JsonValue.null) ↔
      (r.longitude = none ∨ ∃ d, r.longitude = some d ∧ d.mantissa = 0)) ∧
    (∀ d, r.latitude = some d → d.mantissa ≠ 0 →
      lookupEntry (locationRowFields b r) "latitude" =
        some (if b then JsonValue.str d.render else JsonValue.float d)) ∧
    (∀ d, r.longitude = some d → d.mantissa ≠ 0 →
      lookupEntry (locationRowFields b r) "longitude" =
        some (if b then JsonValue.str d.render else JsonValue.float d)) := by
  have hlat : lookupEntry (locationRowFields b r) "latitude" =
      some (decimalFieldJson b r.latitude) := rfl
  have hlong : lookupEntry (locationRowFields b r) "longitude" =
      some (decimalFieldJson b r.longitude) := rfl
  refine ⟨by rw [hlat]; rfl, by rw [hlong]; rfl, ?_, ?_, ?_, ?_⟩
  · rw [hlat]
    simpa using decimalFieldJson_eq_null_iff b r.latitude
  · rw [hlong]
    simpa using decimalFieldJson_eq_null_iff b r.longitude
  · intro d hd hm
    rw [hlat, hd, decimalFieldJson_nonzero b d hm]
  · intro d hd hm
    rw [hlong, hd, decimalFieldJson_nonzero b d hm]

/-- C4 witness: the amended latitude/longitude semantics evaluated on a
concrete row with a negative, non-zero longitude and a NULL latitude. -/
theorem c4_null_semantics_witness :
    lookupEntry (locationRowFields true
        { locationid := 3, city := "London", state := "", venue := "Palladium",
          latitude := none, longitude := some ⟨-785, 1⟩,
          locationslug := "london" }) "latitude" = some JsonValue.null ∧
    lookupEntry (locationRowFields true
        { locationid := 3, city := "London", state := "", venue := "Palladium",
          latitude := none, longitude := some ⟨-785, 1⟩,
          locationslug := "london" }) "longitude" =
      some (JsonValue.str "-78.5") := by
  constructor
  · exact (c4_latitude_longitude_null_semantics true _).2.2.1.mpr (Or.inl rfl)
  · have h := (c4_latitude_longitude_null_semantics true
      { locationid := 3, city := "London", state := "", venue := "Palladium",
        latitude := none, longitude := some ⟨-785, 1⟩,
        locationslug := "london" }).2.2.2.2.2 ⟨-785, 1⟩ rfl (by decide)
    simpa using h

/-- C5: in the panelist-map row transform, a non-NULL
`panelistscore_decimal` of 12.5 becomes the JSON string `"12.5"` under
`convert_decimal_to_string = true` and the JSON number 12.5 under `false`;
a NULL value becomes JSON null in either mode. -/
theorem c5_decimal_representation_switch (r : ShowPnlMapRow) :
    (r.panelistscore_decimal = some ⟨125, 1⟩ →
      lookupEntry (pnlMapRowFields true r) "panelistscore_decimal" =
          some (JsonValue.str "12.5") ∧
      lookupEntry (pnlMapRowFields false r) "panelistscore_decimal" =
          some (JsonValue.float ⟨125, 1⟩)) ∧
    (r.panelistscore_decimal = none →
      ∀ b : Bool,
        lookupEntry (pnlMapRowFields b r) "panelistscore_decimal" =
          some JsonValue.null) := by
  have hl : ∀ b : Bool,
      lookupEntry (pnlMapRowFields b r) "panelistscore_decimal" =
        some (decimalFieldJson b r.panelistscore_decimal) := fun b => rfl
  constructor
  · intro h
    constructor
    · rw [hl true, h]; rfl
    · rw [hl false, h]; rfl
  · intro h b
    rw [hl b, h]
    cases b <;> rfl

/-- A concrete `ww_showpnlmap` row with `panelistscore_decimal = 12.5`. -/
def c5ScoreRow : ShowPnlMapRow :=
  { showpnlmapid := 10, showid := 7, panelistid := 3,
    panelistlrndstart := some 2, panelistlrndstart_decimal := some ⟨25, 1⟩,
    panelistlrndcorrect := some 4, panelistlrndcorrect_decimal := some ⟨45, 1⟩,
    panelistscore := some 12, panelistscore_decimal := some ⟨125, 1⟩,
    showpnlrank := some "1" }

/-- A concrete `ww_showpnlmap` row with NULL `panelistscore_decimal`. -/
def c5NullScoreRow : ShowPnlMapRow :=
  { showpnlmapid := 11, showid := 7, panelistid := 4,
    panelistlrndstart := none, panelistlrndstart_decimal := none,
    panelistlrndcorrect := none, panelistlrndcorrect_decimal := none,
    panelistscore := none, panelistscore_decimal := none,
    showpnlrank := none }

/-- C5 witness: the representation switch evaluated on concrete rows. -/
theorem c5_decimal_representation_witness :
    lookupEntry (pnlMapRowFields true c5ScoreRow) "panelistscore_decimal" =
        some (JsonValue.str "12.5") ∧
    lookupEntry (pnlMapRowFields false c5ScoreRow) "panelistscore_decimal" =
        some (JsonValue.float ⟨125, 1⟩) ∧
    lookupEntry (pnlMapRowFields true c5NullScoreRow) "panelistscore_decimal" =
        some JsonValue.null :=
  ⟨((c5_decimal_representation_switch c5ScoreRow).1 rfl).1,
   ((c5_decimal_representation_switch c5ScoreRow).1 rfl).2,
   (c5_decimal_representation_switch c5NullScoreRow).2 rfl true⟩

/-- C6: every export operation fetches its rows ordered ascending by the
table's primary key and serializes them in that order, so in every emitted
array the primary-key field of element `i` is at most that of element
`i + 1`. -/
theorem c6_arrays_ascending_by_primary_key :
    (∀ t doc, Guests.to_json t = some doc →
      jsonArrayAscendingBy doc "guestid") ∧
    (∀ t doc, Hosts.to_json t = some doc →
      jsonArrayAscendingBy doc "hostid") ∧
    (∀ t doc, Panelists.to_json t = some doc →
      jsonArrayAscendingBy doc "panelistid") ∧
    (∀ t doc, Pronouns.to_json t = some doc →
      jsonArrayAscendingBy doc "pronounsid") ∧
    (∀ t b doc, Locations.to_json t b = some doc →
      jsonArrayAscendingBy doc "locationid") ∧
    (∀ t doc, Shows.to_json t = some doc →
      jsonArrayAscendingBy doc "showid") ∧
    (∀ t doc, Shows.bluff_map_to_json t = some doc →
      jsonArrayAscendingBy doc "showbluffmapid") ∧
    (∀ t doc, Shows.guest_map_to_json t = some doc →
      jsonArrayAscendingBy doc "showguestmapid") ∧
    (∀ t doc, Shows.host_map_to_json t = some doc →
      jsonArrayAscendingBy doc "showhostmapid") ∧
    (∀ t doc, Shows.location_map_to_json t = some doc →
      jsonArrayAscendingBy doc "showlocationmapid") ∧
    (∀ t b doc, Shows.panelist_map_to_json t b = some doc →
      jsonArrayAscendingBy doc "showpnlmapid") ∧
    (∀ t doc, Shows.scorekeeper_map_to_json t = some doc →
      jsonArrayAscendingBy doc "showskmapid") := by
  refine ⟨?_, ?_, ?_, ?_, ?_, ?_, ?_, ?_, ?_, ?_, ?_, ?_⟩
  · exact fun t doc h =>
      exportTable_ascending (fun r : GuestRow => r.guestid) "guestid" guestRowFields (fun r => rfl) t doc h
  · exact fun t doc h =>
      exportTable_ascending (fun r : HostRow => r.hostid) "hostid" hostRowFields (fun r => rfl) t doc h
  · exact fun t doc h =>
      exportTable_ascending (fun r : PanelistRow => r.panelistid) "panelistid" panelistRowFields (fun r => rfl) t doc h
  · exact fun t doc h =>
      exportTable_ascending (fun r : PronounsRow => r.pronounsid) "pronounsid" pronounsRowFields (fun r => rfl) t doc h
  · intro t b doc h
    unfold Locations.to_json at h
    rw [Option.some_inj] at h
    have hm := mapped_sorted_ascending (fun r : LocationRow => r.locationid) "locationid"
      (locationRowFields b) (fun r => rfl) t
    rw [h] at hm
    exact hm
  · exact fun t doc h =>
      exportTable_ascending (fun r : ShowRow => r.showid) "showid" showRowFields (fun r => rfl) t doc h
  · exact fun t doc h =>
      exportTable_ascending (fun r : ShowBluffMapRow => r.showbluffmapid) "showbluffmapid" bluffMapRowFields (fun r => rfl) t doc h
  · exact fun t doc h =>
      exportTable_ascending (fun r : ShowGuestMapRow => r.showguestmapid) "showguestmapid" guestMapRowFields (fun r => rfl) t doc h
  · exact fun t doc h =>
      exportTable_ascending (fun r : ShowHostMapRow => r.showhostmapid) "showhostmapid" hostMapRowFields (fun r => rfl) t doc h
  · exact fun t doc h =>
      exportTable_ascending (fun r : ShowLocationMapRow => r.showlocationmapid) "showlocationmapid" locationMapRowFields (fun r => rfl) t doc h
  · exact fun t b doc h =>
      exportTable_ascending (fun r : ShowPnlMapRow => r.showpnlmapid) "showpnlmapid" (pnlMapRowFields b) (fun r => rfl) t doc h
  · exact fun t doc h =>
      exportTable_ascending (fun r : ShowSkMapRow => r.showskmapid) "showskmapid" skMapRowFields (fun r => rfl) t doc h

/-- C6 witness: the ordering property instantiated on a concrete unsorted
guests table. -/
theorem c6_ascending_witness :
    jsonArrayAscendingBy (JsonValue.arr
      [JsonValue.obj (guestRowFields ⟨1, "Alice Alpha", "alice-alpha"⟩),
       JsonValue.obj (guestRowFields ⟨2, "Bob Beta", "bob-beta"⟩)])
      "guestid" :=
  c6_arrays_ascending_by_primary_key.1
    [⟨2, "Bob Beta", "bob-beta"⟩, ⟨1, "Alice Alpha", "alice-alpha"⟩] _ rfl

theorem runWriteJobs_clean_front (denied : String → Bool)
    (pre : List WriteJob)
    (hallow : ∀ j ∈ pre, denied j.path = false)
    (hcontent : ∀ j ∈ pre, (j.content).isSome = true)
    (rest : List WriteJob) (st : RunState) :
    runWriteJobs denied (pre ++ rest) st =
      runWriteJobs denied rest (runWriteJobs denied pre st) := by
  induction pre generalizing st with
  | nil => rfl
  | cons j pre ih =>
      have hj : denied j.path = false := hallow j (by simp)
      have hc : (j.content).isSome = true := hcontent j (by simp)
      obtain ⟨v, hv⟩ := Option.isSome_iff_exists.mp hc
      simp only [List.cons_append, runWriteJobs, hj, hv,
        Bool.false_eq_true, if_false]
      exact ih (fun x hx => hallow x (by simp [hx]))
        (fun x hx => hcontent x (by simp [hx])) _

/-- C7: a permission error during output-directory creation, or during any
per-table file write, is caught where it occurs; a one-line diagnostic
naming the failing path goes to standard output and the process exits with
status 1; the files written by the jobs before the failing one are exactly
the files on disk afterwards (left intact), and nothing is retried. -/
theorem c7_permission_error_handling :
    (∀ p st, create_output_directory false true p st =
      { st with stdoutLines := st.stdoutLines ++ [mkdirErrorMessage p],
                exitCode := some 1 }) ∧
    (∀ (denied : String → Bool) (pre : List WriteJob) (job : WriteJob)
        (post : List WriteJob),
      (∀ j ∈ pre, denied j.path = false) →
      (∀ j ∈ pre, (j.content).isSome = true) →
      denied job.path = true →
      runWriteJobs denied (pre ++ job :: post) initialRunState =
        { runWriteJobs denied pre initialRunState with
          stdoutLines :=
            (runWriteJobs denied pre initialRunState).stdoutLines
              ++ [writeErrorMessage job.path],
          exitCode := some 1 }) := by
  constructor
  · intro p st; rfl
  · intro denied pre job post hallow hcontent hdenied
    rw [runWriteJobs_clean_front denied pre hallow hcontent (job :: post)
      initialRunState]
    simp only [runWriteJobs, hdenied, if_true]

/-- C7 witness: a concrete run in which the second write is denied — the
first file stays on disk, the diagnostic names the second path, exit
status is 1. -/
theorem c7_permission_error_witness :
    runWriteJobs (fun p => p == "ww_hosts.json")
      ([export_guests_table_job [⟨1, "Tom Hanks", "tom-hanks"⟩]] ++
        { path := "ww_hosts.json", content := some JsonValue.null } :: [])
      initialRunState =
      { runWriteJobs (fun p => p == "ww_hosts.json")
          [export_guests_table_job [⟨1, "Tom Hanks", "tom-hanks"⟩]]
          initialRunState with
        stdoutLines :=
          (runWriteJobs (fun p => p == "ww_hosts.json")
            [export_guests_table_job [⟨1, "Tom Hanks", "tom-hanks"⟩]]
            initialRunState).stdoutLines
            ++ [writeErrorMessage "ww_hosts.json"],
        exitCode := some 1 } :=
  c7_permission_error_handling.2 (fun p => p == "ww_hosts.json")
    [export_guests_table_job [⟨1, "Tom Hanks", "tom-hanks"⟩]]
    { path := "ww_hosts.json", content := some JsonValue.null } []
    (by intro j hj; simp at hj; subst hj; rfl)
    (by intro j hj; simp at hj; subst hj; rfl)
    rfl

theorem lookupEntry_setEntry_self {α : Type} (l : List (String × α))
    (k : String) (v : α) :
    lookupEntry (setEntry l k v) k = some v := by
  induction l with
  | nil => simp [setEntry, lookupEntry]
  | cons p rest ih =>
      obtain ⟨k', v'⟩ := p
      by_cases h : k' = k
      · simp [setEntry, h, lookupEntry]
      · simp [setEntry, h, lookupEntry, ih]

theorem lookupEntry_setEntry_ne {α : Type} (l : List (String × α))
    (k k2 : String) (v : α) (h : k2 ≠ k) :
    lookupEntry (setEntry l k v) k2 = lookupEntry l k2 := by
  have hne : ¬k = k2 := fun he => h he.symm
  induction l with
  | nil => simp [setEntry, lookupEntry, hne]
  | cons p rest ih =>
      obtain ⟨k', v'⟩ := p
      by_cases hk : k' = k
      · subst hk
        simp [setEntry, lookupEntry, hne]
      · simp only [setEntry, if_neg hk, lookupEntry]
        by_cases hk2 : k' = k2
        · simp [hk2]
        · simp [hk2, ih]

/-- C8: `load_settings` returns the `settings` section with
`include_panelist_decimal_score` and `convert_decimal_to_string` each
overwritten by `bool(settings.get(key, False))` — Python truthiness of the
stored value, `false` when the key is absent — while a missing, unreadable
or non-JSON `config.json` raises out of both loaders unhandled, so no
partial or default configuration is ever synthesized. -/
theorem c8_load_settings_contract :
    (∀ (fields settings : List (String × JsonValue)),
      lookupEntry fields "settings" = some (JsonValue.obj settings) →
      ∃ out, load_settings (ConfigSource.parsed (JsonValue.obj fields)) =
          Except.ok (some (JsonValue.obj out)) ∧
        lookupEntry out "include_panelist_decimal_score" =
          some (JsonValue.bool
            (settingsFlag settings "include_panelist_decimal_score")) ∧
        lookupEntry out "convert_decimal_to_string" =
          some (JsonValue.bool
            (settingsFlag settings "convert_decimal_to_string"))) ∧
    (∀ (s : List (String × JsonValue)) (k : String),
      lookupEntry s k = none → settingsFlag s k = false) ∧
    (∀ (s : List (String × JsonValue)) (k : String) (v : JsonValue),
      lookupEntry s k = some v → settingsFlag s k = v.truthy) ∧
    load_settings ConfigSource.missing =
      Except.error PyError.fileNotFoundError ∧
    load_settings ConfigSource.unreadable =
      Except.error PyError.permissionError ∧
    load_settings ConfigSource.invalidJson =
      Except.error PyError.jsonDecodeError ∧
    load_database_config ConfigSource.missing =
      Except.error PyError.fileNotFoundError ∧
    load_database_config ConfigSource.unreadable =
      Except.error PyError.permissionError ∧
    load_database_config ConfigSource.invalidJson =
      Except.error PyError.jsonDecodeError := by
  refine ⟨?_, ?_, ?_, rfl, rfl, rfl, rfl, rfl, rfl⟩
  · intro fields settings hs
    refine ⟨setEntry
        (setEntry settings "include_panelist_decimal_score"
          (JsonValue.bool
            (settingsFlag settings "include_panelist_decimal_score")))
        "convert_decimal_to_string"
        (JsonValue.bool
          (settingsFlag
            (setEntry settings "include_panelist_decimal_score"
              (JsonValue.bool
                (settingsFlag settings "include_panelist_decimal_score")))
            "convert_decimal_to_string")), ?_, ?_, ?_⟩
    · simp only [load_settings, hs]
    · rw [lookupEntry_setEntry_ne _ _ _ _ (by decide),
        lookupEntry_setEntry_self]
    · rw [lookupEntry_setEntry_self]
      have : settingsFlag
          (setEntry settings "include_panelist_decimal_score"
            (JsonValue.bool
              (settingsFlag settings "include_panelist_decimal_score")))
          "convert_decimal_to_string" =
          settingsFlag settings "convert_decimal_to_string" := by
        unfold settingsFlag
        rw [lookupEntry_setEntry_ne _ _ _ _ (by decide)]
      rw [this]
  · intro s k h; simp [settingsFlag, h]
  · intro s k v h; simp [settingsFlag, h]

/-- C8 witness: a concrete parsed config whose `settings` section lacks
`include_panelist_decimal_score` (defaults to false) and holds the integer
1 under `convert_decimal_to_string` (truthy, coerced to true); and the
loaders raise on a missing file. -/
theorem c8_load_settings_witness :
    (∃ out, load_settings (ConfigSource.parsed (JsonValue.obj
        [("settings", JsonValue.obj
            [("convert_decimal_to_string", JsonValue.int 1)])])) =
        Except.ok (some (JsonValue.obj out)) ∧
      lookupEntry out "include_panelist_decimal_score" =
        some (JsonValue.bool false) ∧
      lookupEntry out "convert_decimal_to_string" =
        some (JsonValue.bool true)) ∧
    load_settings ConfigSource.missing =
      Except.error PyError.fileNotFoundError := by
  constructor
  · obtain ⟨out, h1, h2, h3⟩ := c8_load_settings_contract.1
      [("settings", JsonValue.obj
          [("convert_decimal_to_string", JsonValue.int 1)])]
      [("convert_decimal_to_string", JsonValue.int 1)] rfl
    exact ⟨out, h1, h2, h3⟩
  · exact c8_load_settings_contract.2.2.2.1

/-- C9: when a (non-empty, hence truthy) `connect_dict` and a
`database_connection` are both passed, the constructor opens a new
connection from `connect_dict` and ignores the passed handle without ever
checking its liveness; when neither is passed, no connection attribute is
set and a later `to_json` call fails with `AttributeError`. -/
theorem c9_constructor_behavior :
    (∀ (d : List (String × JsonValue)) (conn : ConnectionHandle), d ≠ [] →
      exporterInit (some d) (some conn) =
        { connect_dict := some d,
          database_connection := some (mysqlConnect d),
          openedNewConnection := true, checkedLiveness := false,
          reconnected := false }) ∧
    (exporterInit none none).database_connection = none ∧
    (∀ t, Guests.to_json_on (exporterInit none none) t =
      Except.error PyError.attributeError) ∧
    Guests.init = exporterInit ∧ Locations.init = exporterInit := by
  refine ⟨?_, rfl, fun t => rfl, rfl, rfl⟩
  intro d conn hd
  cases d with
  | nil => exact absurd rfl hd
  | cons x xs => rfl

/-- C9 witness: constructing with a one-key connect dict and a *dead*
handle opens a fresh connection and never touches the handle; constructing
with neither makes `to_json` raise `AttributeError`. -/
theorem c9_constructor_witness :
    exporterInit (some [("host", JsonValue.str "localhost")])
        (some { params := [], is_connected := false }) =
      { connect_dict := some [("host", JsonValue.str "localhost")],
        database_connection :=
          some (mysqlConnect [("host", JsonValue.str "localhost")]),
        openedNewConnection := true, checkedLiveness := false,
        reconnected := false } ∧
    Guests.to_json_on (exporterInit none none) [] =
      Except.error PyError.attributeError :=
  ⟨c9_constructor_behavior.1 [("host", JsonValue.str "localhost")]
      { params := [], is_connected := false } (List.cons_ne_nil _ _),
   c9_constructor_behavior.2.2.1 []⟩

theorem setEntry_setEntry_same {α : Type} (l : List (String × α))
    (k : String) (v : α) :
    setEntry (setEntry l k v) k v = setEntry l k v := by
  induction l with
  | nil => simp [setEntry]
  | cons p rest ih =>
      obtain ⟨k', v'⟩ := p
      by_cases h : k' = k
      · simp [setEntry, h]
      · simp [setEntry, h, ih]

/-- C10: `export_shows_tables` emits the `ww_showhostmap.json` write twice
in immediate succession with the same `host_map_to_json` content; running
the full job list leaves exactly the state a single host-map write would
leave. -/
theorem c10_duplicate_hostmap_write (db : ShowsDb) (b : Bool)
    (h1 : (Shows.to_json db.shows).isSome = true)
    (h2 : (Shows.guest_map_to_json db.guestMap).isSome = true)
    (h3 : (Shows.host_map_to_json db.hostMap).isSome = true)
    (h4 : (Shows.location_map_to_json db.locationMap).isSome = true)
    (h5 : (Shows.panelist_map_to_json db.panelistMap b).isSome = true)
    (h6 : (Shows.scorekeeper_map_to_json db.scorekeeperMap).isSome = true) :
    (export_shows_tables_jobs db b).countP
        (fun j => j.path == "ww_showhostmap.json") = 2 ∧
    ((export_shows_tables_jobs db b).filter
        (fun j => j.path == "ww_showhostmap.json")).map WriteJob.content =
      [Shows.host_map_to_json db.hostMap, Shows.host_map_to_json db.hostMap] ∧
    runWriteJobs (fun _ => false) (export_shows_tables_jobs db b)
        initialRunState =
      runWriteJobs (fun _ => false)
        (export_shows_tables_jobs_single_hostmap db b) initialRunState := by
  obtain ⟨v1, hv1⟩ := Option.isSome_iff_exists.mp h1
  obtain ⟨v2, hv2⟩ := Option.isSome_iff_exists.mp h2
  obtain ⟨v3, hv3⟩ := Option.isSome_iff_exists.mp h3
  obtain ⟨v4, hv4⟩ := Option.isSome_iff_exists.mp h4
  obtain ⟨v5, hv5⟩ := Option.isSome_iff_exists.mp h5
  obtain ⟨v6, hv6⟩ := Option.isSome_iff_exists.mp h6
  refine ⟨rfl, by simp [export_shows_tables_jobs], ?_⟩
  simp only [export_shows_tables_jobs, export_shows_tables_jobs_single_hostmap,
    runWriteJobs, hv1, hv2, hv3, hv4, hv5, hv6, Bool.false_eq_true, if_false]
  rw [setEntry_setEntry_same]

/-- A one-row-per-table shows database used as the C10 witness input. -/
def c10Db : ShowsDb :=
  { shows := [{ showid := 1, showdate := ⟨1998, 1, 3⟩, repeatshowid := none,
                bestof := 0, bestofuniquebluff := 0 }],
    guestMap := [{ showguestmapid := 1, showid := 1, guestid := 1,
                   guestscore := some 2, exception := 0 }],
    hostMap := [{ showhostmapid := 1, showid := 1, hostid := 1, guest := 0 }],
    locationMap := [{ showlocationmapid := 1, showid := 1, locationid := 1 }],
    panelistMap := [{ showpnlmapid := 1, showid := 1, panelistid := 1,
                      panelistlrndstart := none,
                      panelistlrndstart_decimal := none,
                      panelistlrndcorrect := none,
                      panelistlrndcorrect_decimal := none,
                      panelistscore := none, panelistscore_decimal := none,
                      showpnlrank := none }],
    scorekeeperMap := [{ showskmapid := 1, showid := 1, scorekeeperid := 1,
                         guest := 0, description := none }] }

/-- C10 witness: the duplicate-write collapse evaluated on a concrete
database with one row per table. -/
theorem c10_duplicate_hostmap_witness :
    (export_shows_tables_jobs c10Db false).countP
        (fun j => j.path == "ww_showhostmap.json") = 2 ∧
    ((export_shows_tables_jobs c10Db false).filter
        (fun j => j.path == "ww_showhostmap.json")).map WriteJob.content =
      [Shows.host_map_to_json c10Db.hostMap,
       Shows.host_map_to_json c10Db.hostMap] ∧
    runWriteJobs (fun _ => false) (export_shows_tables_jobs c10Db false)
        initialRunState =
      runWriteJobs (fun _ => false)
        (export_shows_tables_jobs_single_hostmap c10Db false)
        initialRunState :=
  c10_duplicate_hostmap_write c10Db false rfl rfl rfl rfl rfl rfl
